import Mathlib

/-!
# Verification model of `rag-doc-consultant`

A shallow embedding of the repository's three Python modules
(`ingest_data.py`, `rag_core.py`, `app.py`) and proofs about the claims
of its specification.

External library behaviour (the Chroma vector store's nearest-neighbor
search, the hosted chat LLM, the `requests` HTTP client, the filesystem)
is modelled by explicit function parameters, so every repository function
becomes a pure Lean function of its inputs and that environment.
-/

namespace RagDoc

/-- A parsed document fragment: the `{"source": ..., "content": ...}`
dictionaries produced by `ingest_data.py` and, after chunking, the
`Document(page_content, metadata={'source': ...})` objects of
`rag_core.py`. -/
structure Doc where
  source : String
  content : String
deriving Repr, DecidableEq

/-! ## Model of `ingest_data.py` -/

/-- Contents of a file on disk, at the granularity the parsers see it:
a PDF is the list of its pages' extracted texts (what `fitz` yields),
any other file is its decoded text (what `open(...).read()` yields). -/
inductive FileData where
  | pdf (pages : List String)
  | plain (content : String)
deriving Repr, DecidableEq

/-- A filesystem: paths (as component lists) to file contents; `none`
means the path does not exist. -/
abbrev FileSystem := List String → Option FileData

/-- A Python exception escaping a modelled function. -/
inductive PyErr where
  /-- `fitz.open` applied to data that is not a PDF document. -/
  | fitzError
  /-- `open(...).read()` with `encoding='utf-8'` applied to binary data. -/
  | unicodeDecodeError
  /-- Attribute access on `None`. -/
  | attributeError
deriving Repr, DecidableEq

/-- `os.path.basename`: the last component of a path. -/
def os_basename (p : List String) : String := p.getLastD ""

/-- `os.path.join(dir, filename)`. -/
def os_join (dir : List String) (filename : String) : List String := dir ++ [filename]

/-- `os.path.exists`. -/
def os_exists (fs : FileSystem) (p : List String) : Bool := (fs p).isSome

/-- The per-page entries `parse_pdf` builds:
`{"source": f"{basename} - Page {page_num + 1}", "content": page.get_text()}`. -/
def page_docs (base : String) (pages : List String) : List Doc :=
  pages.enum.map fun pr => ⟨base ++ " - Page " ++ toString (pr.1 + 1), pr.2⟩

/-- `ingest_data.parse_pdf`: returns `[]` when the path does not exist,
otherwise one entry per page. Applying it to a file that is not a PDF
makes `fitz.open` fail. -/
def parse_pdf (fs : FileSystem) (file_path : List String) : Except PyErr (List Doc) :=
  match fs file_path with
  | none => .ok []
  | some (.pdf pages) => .ok (page_docs (os_basename file_path) pages)
  | some (.plain _) => .error .fitzError

/-- `ingest_data.parse_markdown`: returns `[]` when the path does not
exist, otherwise a single entry holding the whole file. Reading binary
(PDF) data as UTF-8 text fails. -/
def parse_markdown (fs : FileSystem) (file_path : List String) : Except PyErr (List Doc) :=
  match fs file_path with
  | none => .ok []
  | some (.plain content) => .ok [⟨os_basename file_path, content⟩]
  | some (.pdf _) => .error .unicodeDecodeError

/-- `ingest_data.parse_text`: identical in behaviour to `parse_markdown`. -/
def parse_text (fs : FileSystem) (file_path : List String) : Except PyErr (List Doc) :=
  match fs file_path with
  | none => .ok []
  | some (.plain content) => .ok [⟨os_basename file_path, content⟩]
  | some (.pdf _) => .error .unicodeDecodeError

/-- Python's `str.endswith`, on the character lists of the strings. -/
def strEndsWith (s suffix : String) : Bool := suffix.data.isSuffixOf s.data

/-- The loop body of `load_documents` over a directory listing:
dispatch on the filename suffix, extend the accumulated list, and skip
any file with an unsupported name. -/
def load_documents_loop (fs : FileSystem) (dir : List String) :
    List String → Except PyErr (List Doc)
  | [] => .ok []
  | filename :: rest => do
    let docs ←
      if strEndsWith filename ".pdf" then parse_pdf fs (os_join dir filename)
      else if strEndsWith filename ".md" then parse_markdown fs (os_join dir filename)
      else if strEndsWith filename ".txt" then parse_text fs (os_join dir filename)
      else .ok []
    let restDocs ← load_documents_loop fs dir rest
    .ok (docs ++ restDocs)

/-- `ingest_data.load_documents`: iterate `os.listdir(source_dir)` and
collect the parses of every supported file. `listdir` models
`os.listdir`. -/
def load_documents (fs : FileSystem) (listdir : List String → List String)
    (source_dir : List String) : Except PyErr (List Doc) :=
  load_documents_loop fs source_dir (listdir source_dir)

/-! ### HTML scraping -/

/-- An HTML node as BeautifulSoup exposes it: a text node or an element
with a tag name and children. -/
inductive Html where
  | textNode (s : String) : Html
  | element (tag : String) (children : List Html) : Html
deriving Repr

mutual

/-- The `tag.decompose()` loop: remove every element whose tag is in
`bad`, together with its whole subtree; other nodes are kept with their
children cleaned. -/
def decomposeTags (bad : List String) : Html → List Html
  | .textNode s => [.textNode s]
  | .element tag children =>
    if tag ∈ bad then [] else [.element tag (decomposeTagsList bad children)]

/-- `decomposeTags` over a list of sibling nodes. -/
def decomposeTagsList (bad : List String) : List Html → List Html
  | [] => []
  | c :: cs => decomposeTags bad c ++ decomposeTagsList bad cs

end

mutual

/-- The raw strings of a node, in document order (what
`soup.get_text` walks). -/
def htmlStrings : Html → List String
  | .textNode s => [s]
  | .element _ children => htmlStringsList children

/-- `htmlStrings` over sibling nodes. -/
def htmlStringsList : List Html → List String
  | [] => []
  | c :: cs => htmlStrings c ++ htmlStringsList cs

end

/-- Python's `str.strip()`: whitespace removed from both ends. -/
def pyStrip (s : String) : String :=
  String.mk
    (((s.data.dropWhile Char.isWhitespace).reverse.dropWhile Char.isWhitespace).reverse)

/-- `soup.get_text(separator='\n', strip=True)`: each string stripped,
whitespace-only strings dropped, the rest joined with newlines. -/
def soup_get_text (nodes : List Html) : String :=
  String.intercalate "\n"
    (((htmlStringsList nodes).map pyStrip).filter (fun s => s ≠ ""))

/-- Outcome of `requests.get(url, timeout=10)`: a response with a status
code and parsed body, or a `requests.RequestException` (connection
error, timeout, ...). -/
inductive HttpResult where
  | response (status : Nat) (body : List Html)
  | failure

/-- An HTTP client, modelling `requests.get` with its 10s timeout. -/
abbrev HttpClient := String → HttpResult

/-- The non-content tags `scrape_web_page` removes. -/
def BAD_TAGS : List String := ["script", "style", "nav", "footer", "header"]

/-- `ingest_data.scrape_web_page`: fetch the URL; `raise_for_status`
turns a 4xx/5xx status into an `HTTPError` (a `RequestException`), and
the `except requests.RequestException` handler maps every such failure
to `[]`. On success, strip the non-content tags and return one entry
whose source is the URL. -/
def scrape_web_page (http : HttpClient) (url : String) : List Doc :=
  match http url with
  | .failure => []
  | .response status body =>
    if 400 ≤ status then []
    else
      let cleaned := decomposeTagsList BAD_TAGS body
      [⟨url, soup_get_text cleaned⟩]

/-! ## Model of `rag_core.py` -/

def LLM_REPO_ID : String := "mistralai/Mixtral-8x7B-Instruct-v0.1"

def VECTORSTORE_DIR : String := "vectorstore"

def EMBEDDING_MODEL_NAME : String := "sentence-transformers/all-MiniLM-L6-v2"

/-- The system message of `RAG_PROMPT`. -/
def SYSTEM_PROMPT : String :=
  "You are an expert technical assistant. Use the provided context to answer the user's question. If you don't know the answer, state that you don't know. Do not try to make up an answer."

/-- A message in the conversation buffer (`return_messages=True` makes
`ConversationBufferMemory` hold `HumanMessage`/`AIMessage` objects). -/
inductive ChatMsg where
  | human (s : String)
  | ai (s : String)
deriving Repr, DecidableEq

/-- `ConversationBufferMemory.save_context({"question": q}, {"answer": a})`:
append the human question and the AI answer to the buffer. -/
def save_context (memory : List ChatMsg) (question answer : String) : List ChatMsg :=
  memory ++ [.human question, .ai answer]

/-- A Chroma vector store: the chunked documents it indexes and the
directory it persists to. -/
structure VectorStore where
  docs : List Doc
  persistDir : String
deriving Repr, DecidableEq

/-- `vector_store.as_retriever(search_kwargs={"k": k})`. -/
structure Retriever where
  store : VectorStore
  k : Nat
deriving Repr, DecidableEq

/-- A chat prompt: `(role, content)` message pairs, the output of
`ChatPromptTemplate` formatting. -/
abbrev Prompt := List (String × String)

/-- External library behaviour `rag_core.py` delegates to. -/
structure Env where
  /-- Chroma's similarity ordering of a store's contents for a query;
  the retriever keeps the first `k` of it. Pure, as Chroma's search is
  deterministic for a fixed store. -/
  rank : VectorStore → String → List Doc
  /-- The hosted chat model composed with `StrOutputParser`: the string
  content of the `ChatHuggingFace` completion for a prompt. -/
  llm : Prompt → String
  /-- The template engine's string rendering of a message list when it
  is substituted for the `{chat_history}` placeholder. -/
  render : List ChatMsg → String
  /-- `os.path.exists` on the vector-store directory. -/
  pathExists : String → Bool
  /-- Opening a persisted Chroma store:
  `Chroma(persist_directory=..., embedding_function=...)`. -/
  chromaLoad : String → VectorStore

/-- The mutable fields of a `RAGCore` instance. The LCEL chain is a
closure over `self`, so it is represented by whether it has been built
(`qa_chain`); its behaviour reads `retriever` and `memory` from the
state at call time (see `ask_question`). -/
structure RAGState where
  vector_store : Option VectorStore
  qa_chain : Bool
  retriever : Option Retriever
  memory : List ChatMsg
deriving Repr, DecidableEq

/-- `RAGCore.__init__`: no store, no chain, no retriever, empty memory. -/
def initState : RAGState :=
  { vector_store := none, qa_chain := false, retriever := none, memory := [] }

/-- The dictionary `ask_question` returns; `source_documents := none`
models the key being absent. -/
structure AskResult where
  answer : String
  source_documents : Option (List Doc)
deriving Repr, DecidableEq

/-- Observable steps of one `ask_question` call, in the order they
happen. -/
inductive Event where
  /-- `self.retriever.invoke(question)`: similarity retrieval. -/
  | retrieve (question : String) (docs : List Doc)
  /-- `RAG_PROMPT` formatted with context, history and question. -/
  | assemblePrompt (prompt : Prompt)
  /-- The chat model invoked on the assembled prompt. -/
  | llmInvoke (prompt : Prompt) (answer : String)
  /-- `self.memory.save_context({"question": ...}, {"answer": ...})`. -/
  | saveContext (question answer : String)
deriving Repr, DecidableEq

/-- `RAGCore._format_docs`: join the retrieved documents as
`"Source: ...\nContent: ..."` blocks separated by blank lines. -/
def format_docs (docs : List Doc) : String :=
  String.intercalate "\n\n"
    (docs.map fun d => "Source: " ++ d.source ++ "\nContent: " ++ d.content)

/-- `RAG_PROMPT.format`: the system message plus the human message with
the `{context}`, `{chat_history}` and `{question}` slots filled. -/
def RAG_PROMPT_format (render : List ChatMsg → String) (context : String)
    (chat_history : List ChatMsg) (question : String) : Prompt :=
  [("system", SYSTEM_PROMPT),
   ("human",
     "CONTEXT:\n" ++ context ++ "\n\nCHAT HISTORY:\n" ++ render chat_history
       ++ "\n\nQUESTION:\n" ++ question ++ "\n\nANSWER:")]

/-- `retriever.invoke(question)`: the `k` nearest neighbours of the
query in the store. -/
def retriever_invoke (env : Env) (r : Retriever) (question : String) : List Doc :=
  (env.rank r.store question).take r.k

/-- `RAGCore.load_existing_vectorstore`: when the persist directory
exists, open it and build a retriever with `k = 4`; the `Bool` is the
method's return value. -/
def load_existing_vectorstore (env : Env) (st : RAGState) : RAGState × Bool :=
  if env.pathExists VECTORSTORE_DIR then
    let vs := env.chromaLoad VECTORSTORE_DIR
    ({ st with vector_store := some vs, retriever := some ⟨vs, 4⟩ }, true)
  else
    (st, false)

/-- Modelled from the spec: `RecursiveCharacterTextSplitter(chunk_size=1000,
chunk_overlap=200)` is langchain library code absent from the repository.
Following the spec's "Splitting long documents into smaller overlapping
text segments", it is modelled as a sliding window: windows of at most
1000 characters, consecutive windows sharing 200 characters. -/
def split_text_chars (cs : List Char) : List (List Char) :=
  if cs.length ≤ 1000 then [cs]
  else cs.take 1000 :: split_text_chars (cs.drop 800)
termination_by cs.length
decreasing_by simp; omega

/-- The splitter on strings (`split_text`). -/
def split_text (s : String) : List String :=
  (split_text_chars s.data).map String.mk

/-- `text_splitter.split_documents`: chunk each document's content,
each chunk keeping its document's source metadata. -/
def split_documents (docs : List Doc) : List Doc :=
  docs.flatMap fun d => (split_text d.content).map fun c => ⟨d.source, c⟩

/-- `RAGCore.ingest_documents`: return unchanged on an empty list;
otherwise chunk the documents, build a fresh Chroma store over the
chunks persisted at `VECTORSTORE_DIR`, and a fresh retriever with
`k = 4`. -/
def ingest_documents (st : RAGState) (source_documents : List Doc) : RAGState :=
  if source_documents.isEmpty then st
  else
    let chunked := split_documents source_documents
    let vs : VectorStore := ⟨chunked, VECTORSTORE_DIR⟩
    { st with vector_store := some vs, retriever := some ⟨vs, 4⟩ }

/-- `RAGCore.setup_qa_chain`: refuse when no retriever is available,
otherwise build the LCEL chain. -/
def setup_qa_chain (st : RAGState) : RAGState :=
  match st.retriever with
  | none => st
  | some _ => { st with qa_chain := true }

/-- `RAGCore.ask_question`. Without a chain it returns the
not-initialized answer (no `source_documents` key) and touches nothing.
Otherwise it retrieves `relevant_docs`, then invokes the chain — whose
context lambda retrieves again for the same question, whose
`get_chat_history` reads the memory as it stands, and which pipes the
formatted prompt through the chat model and `StrOutputParser` — and
finally saves the question/answer pair to memory. The event list
records the steps in order. A chain built while a retriever existed
that was later lost would hit `None.invoke` (`attributeError`); in the
code the retriever is never reset, so this branch is unreachable. -/
def ask_question (env : Env) (st : RAGState) (question : String) :
    Except PyErr (AskResult × RAGState × List Event) :=
  if st.qa_chain = false then
    .ok ({ answer := "The QA system is not initialized.", source_documents := none }, st, [])
  else
    match st.retriever with
    | none => .error .attributeError
    | some r =>
      let relevant_docs := retriever_invoke env r question
      let context_docs := retriever_invoke env r question
      let context := format_docs context_docs
      let chat_history := st.memory
      let prompt := RAG_PROMPT_format env.render context chat_history question
      let answer := env.llm prompt
      let st2 := { st with memory := save_context st.memory question answer }
      .ok ({ answer := answer, source_documents := some relevant_docs }, st2,
        [.retrieve question relevant_docs, .retrieve question context_docs,
         .assemblePrompt prompt, .llmInvoke prompt answer,
         .saveContext question answer])

/-! ## Claim-side descriptions and invariants -/

/-- The contents of a directory entry match what its suffix makes
`load_documents` do with it: a `.pdf` name holds PDF data, and a
`.md`/`.txt` name (not also ending in `.pdf`) holds decodable text. -/
def FileOkFor (fs : FileSystem) (dir : List String) (f : String) : Prop :=
  (strEndsWith f ".pdf" = true → ∃ pages, fs (os_join dir f) = some (.pdf pages)) ∧
  (strEndsWith f ".pdf" = false →
    strEndsWith f ".md" = true ∨ strEndsWith f ".txt" = true →
    ∃ c, fs (os_join dir f) = some (.plain c))

/-- The entries the specification says a single directory entry
contributes: per-page entries with source `"<name> - Page <n>"` for a
`.pdf` name, one entry with source `<name>` for a `.md` or `.txt` name,
nothing for any other name. -/
def c4_docs_for (fs : FileSystem) (dir : List String) (f : String) : List Doc :=
  if strEndsWith f ".pdf" then
    match fs (os_join dir f) with
    | some (.pdf pages) => page_docs f pages
    | _ => []
  else if strEndsWith f ".md" || strEndsWith f ".txt" then
    match fs (os_join dir f) with
    | some (.plain c) => [⟨f, c⟩]
    | _ => []
  else []

/-- Every retriever held by the state is configured with `k = 4`. -/
def RetrieverK4 (st : RAGState) : Prop :=
  ∀ r, st.retriever = some r → r.k = 4

/-! ## Concrete fixtures used by the witness theorems -/

/-- A concrete environment: ranking returns the store's contents, the
model answers a fixed string, history renders as its length. -/
def envW : Env where
  rank := fun vs _ => vs.docs
  llm := fun _ => "model answer"
  render := fun msgs => toString msgs.length
  pathExists := fun _ => true
  chromaLoad := fun d => ⟨[⟨"seed", "text"⟩], d⟩

/-- A concrete ready state: store loaded, retriever with `k = 4`, chain
built, one prior exchange in memory. -/
def stReadyW : RAGState where
  vector_store := some ⟨[⟨"seed", "text"⟩], VECTORSTORE_DIR⟩
  qa_chain := true
  retriever := some ⟨⟨[⟨"seed", "text"⟩], VECTORSTORE_DIR⟩, 4⟩
  memory := [.human "earlier q", .ai "earlier a"]

/-- A concrete filesystem for a directory `docs` holding a two-page
PDF, a markdown file, a text file and an unsupported file. -/
def fsW : FileSystem := fun p =>
  if p = ["docs", "a.pdf"] then some (.pdf ["page one", "page two"])
  else if p = ["docs", "b.md"] then some (.plain "md body")
  else if p = ["docs", "notes.txt"] then some (.plain "txt body")
  else if p = ["docs", "skip.png"] then some (.plain "png bytes")
  else none

/-- The matching directory listing. -/
def listdirW : List String → List String := fun _ =>
  ["a.pdf", "b.md", "notes.txt", "skip.png"]

/-- A concrete HTTP client: one URL times out, one returns 404, one
succeeds with a small page. -/
def httpW : HttpClient := fun url =>
  if url = "http://down.example" then .failure
  else if url = "http://missing.example" then .response 404 [.textNode "gone"]
  else
    .response 200
      [.element "html"
        [.element "header" [.textNode "site banner"],
         .element "script" [.textNode "var x = 1;"],
         .element "p" [.textNode "  hello world  "]]]

/-! ## Theorems -/

/-- C8: calling `ask_question` while the QA chain is not initialized
returns exactly the dictionary `{"answer": "The QA system is not
initialized."}` — no `source_documents` key — and the state, the
conversation memory included, is unchanged; no step of the pipeline
runs. -/
theorem askQuestion_uninitialized (env : Env) (st : RAGState) (q : String)
    (h : st.qa_chain = false) :
    ask_question env st q =
      .ok ({ answer := "The QA system is not initialized.",
             source_documents := none }, st, []) := by
  simp [ask_question, h]

/-- Witness for C8 at the freshly constructed state. -/
theorem askQuestion_uninitialized_witness :
    ask_question envW initState "hello" =
      .ok ({ answer := "The QA system is not initialized.",
             source_documents := none }, initState, []) :=
  askQuestion_uninitialized envW initState "hello" rfl

/-- C10: each of `parse_pdf`, `parse_markdown` and `parse_text` returns
the empty list, raising no exception, when the given path does not
exist. -/
theorem parse_missing_file (fs : FileSystem) (p : List String)
    (h : fs p = none) :
    parse_pdf fs p = .ok [] ∧ parse_markdown fs p = .ok [] ∧
      parse_text fs p = .ok [] := by
  simp [parse_pdf, parse_markdown, parse_text, h]

/-- Witness for C10 on a path absent from the concrete filesystem. -/
theorem parse_missing_file_witness :
    parse_pdf fsW ["docs", "ghost.pdf"] = .ok [] ∧
      parse_markdown fsW ["docs", "ghost.pdf"] = .ok [] ∧
      parse_text fsW ["docs", "ghost.pdf"] = .ok [] :=
  parse_missing_file fsW ["docs", "ghost.pdf"] (by decide)

/-- C9: `ingest_documents` on an empty list returns the state
untouched; on a non-empty list it leaves the memory (and the chain
flag) unchanged and installs a freshly built vector store over the
chunked documents together with a fresh retriever on that store. -/
theorem ingest_documents_frame (st : RAGState) (docs : List Doc) :
    ingest_documents st [] = st ∧
    (docs ≠ [] →
      (ingest_documents st docs).memory = st.memory ∧
      (ingest_documents st docs).qa_chain = st.qa_chain ∧
      (ingest_documents st docs).vector_store =
        some ⟨split_documents docs, VECTORSTORE_DIR⟩ ∧
      (ingest_documents st docs).retriever =
        some ⟨⟨split_documents docs, VECTORSTORE_DIR⟩, 4⟩) := by
  refine ⟨by simp [ingest_documents], fun h => ?_⟩
  simp [ingest_documents, List.isEmpty_iff, h]

/-- Witness for C9: the empty-list case and the non-empty case at a
one-document list. -/
theorem ingest_documents_frame_witness :
    ingest_documents initState [] = initState ∧
      (ingest_documents initState [⟨"s", "c"⟩]).memory = initState.memory :=
  ⟨(ingest_documents_frame initState [⟨"s", "c"⟩]).1,
    ((ingest_documents_frame initState [⟨"s", "c"⟩]).2 (by simp)).1⟩

/-- C7: `scrape_web_page` returns the empty list, raising nothing, on
any request failure or non-success HTTP status, and on success a
one-element list whose source is the URL and whose content is the
page's text after the script, style, nav, footer and header elements
are removed. -/
theorem scrape_web_page_spec (http : HttpClient) (url : String) :
    (http url = .failure → scrape_web_page http url = []) ∧
    (∀ status body, http url = .response status body →
      (400 ≤ status → scrape_web_page http url = []) ∧
      (status < 400 →
        scrape_web_page http url =
          [⟨url, soup_get_text (decomposeTagsList BAD_TAGS body)⟩])) := by
  refine ⟨fun h => by simp [scrape_web_page, h], fun status body h => ⟨?_, ?_⟩⟩
  · intro hs
    simp [scrape_web_page, h, hs]
  · intro hs
    simp [scrape_web_page, h, Nat.not_le.mpr hs]

/-- Witness for C7: a timed-out URL and a 404 yield `[]`; the page that
loads yields one entry with the cleaned text. -/
theorem scrape_web_page_spec_witness :
    scrape_web_page httpW "http://down.example" = [] ∧
      scrape_web_page httpW "http://missing.example" = [] ∧
      scrape_web_page httpW "http://ok.example" =
        [⟨"http://ok.example", "hello world"⟩] := by
  refine ⟨(scrape_web_page_spec httpW "http://down.example").1 (by rfl), ?_, ?_⟩
  · exact ((scrape_web_page_spec httpW "http://missing.example").2 404
      [.textNode "gone"] (by rfl)).1 (by omega)
  · have h := ((scrape_web_page_spec httpW "http://ok.example").2 200
      [.element "html"
        [.element "header" [.textNode "site banner"],
         .element "script" [.textNode "var x = 1;"],
         .element "p" [.textNode "  hello world  "]]] (by rfl)).2 (by omega)
    rw [h]
    rfl

/-- C1: with the chain set up, `ask_question` performs similarity
retrieval, then prompt assembly from retrieved context, stored history
and question, then the model invocation, and only then the memory
update recording the question/answer pair — the event list is exactly
this order, the prompt is built from the memory as it was before the
call, and the final state appends the new exchange after the answer
exists. -/
theorem askQuestion_pipeline_order (env : Env) (st : RAGState) (q : String)
    (r : Retriever) (hchain : st.qa_chain = true) (hr : st.retriever = some r) :
    ∃ docs prompt answer,
      prompt = RAG_PROMPT_format env.render (format_docs docs) st.memory q ∧
      ask_question env st q =
        .ok ({ answer := answer, source_documents := some docs },
          { st with memory := st.memory ++ [.human q, .ai answer] },
          [.retrieve q docs, .retrieve q docs, .assemblePrompt prompt,
           .llmInvoke prompt answer, .saveContext q answer]) := by
  refine ⟨retriever_invoke env r q,
    RAG_PROMPT_format env.render (format_docs (retriever_invoke env r q)) st.memory q,
    env.llm (RAG_PROMPT_format env.render (format_docs (retriever_invoke env r q))
      st.memory q),
    rfl, ?_⟩
  simp [ask_question, hchain, hr, save_context]

/-- Witness for C1 at the concrete ready state. -/
theorem askQuestion_pipeline_order_witness :
    ∃ docs prompt answer,
      prompt =
        RAG_PROMPT_format envW.render (format_docs docs) stReadyW.memory "q" ∧
      ask_question envW stReadyW "q" =
        .ok ({ answer := answer, source_documents := some docs },
          { stReadyW with
              memory := stReadyW.memory ++ [.human "q", .ai answer] },
          [.retrieve "q" docs, .retrieve "q" docs, .assemblePrompt prompt,
           .llmInvoke prompt answer, .saveContext "q" answer]) :=
  askQuestion_pipeline_order envW stReadyW "q"
    ⟨⟨[⟨"seed", "text"⟩], VECTORSTORE_DIR⟩, 4⟩ rfl rfl

/-- C2: with the chain set up, the prompt handed to the language model
carries the retrieved documents — each rendered as a
`Source:`/`Content:` block — in its CONTEXT slot, the conversation
memory's messages in its CHAT HISTORY slot, and the user's question
verbatim in its QUESTION slot. -/
theorem askQuestion_prompt_grounded (env : Env) (st : RAGState) (q : String)
    (r : Retriever) (hchain : st.qa_chain = true) (hr : st.retriever = some r) :
    ∃ docs answer st2 tr,
      docs = retriever_invoke env r q ∧
      ask_question env st q =
        .ok ({ answer := answer, source_documents := some docs }, st2, tr) ∧
      Event.llmInvoke
        [("system", SYSTEM_PROMPT),
         ("human",
           "CONTEXT:\n" ++ format_docs docs ++ "\n\nCHAT HISTORY:\n"
             ++ env.render st.memory ++ "\n\nQUESTION:\n" ++ q
             ++ "\n\nANSWER:")] answer ∈ tr := by
  refine ⟨retriever_invoke env r q,
    env.llm (RAG_PROMPT_format env.render (format_docs (retriever_invoke env r q))
      st.memory q),
    { st with
        memory := save_context st.memory q
          (env.llm (RAG_PROMPT_format env.render
            (format_docs (retriever_invoke env r q)) st.memory q)) },
    [.retrieve q (retriever_invoke env r q), .retrieve q (retriever_invoke env r q),
     .assemblePrompt (RAG_PROMPT_format env.render
       (format_docs (retriever_invoke env r q)) st.memory q),
     .llmInvoke (RAG_PROMPT_format env.render
       (format_docs (retriever_invoke env r q)) st.memory q)
       (env.llm (RAG_PROMPT_format env.render
         (format_docs (retriever_invoke env r q)) st.memory q)),
     .saveContext q
       (env.llm (RAG_PROMPT_format env.render
         (format_docs (retriever_invoke env r q)) st.memory q))],
    rfl, ?_, ?_⟩
  · simp [ask_question, hchain, hr]
  · simp [RAG_PROMPT_format]

/-- Witness for C2 at the concrete ready state. -/
theorem askQuestion_prompt_grounded_witness :
    ∃ docs answer st2 tr,
      docs =
        retriever_invoke envW ⟨⟨[⟨"seed", "text"⟩], VECTORSTORE_DIR⟩, 4⟩ "q" ∧
      ask_question envW stReadyW "q" =
        .ok ({ answer := answer, source_documents := some docs }, st2, tr) ∧
      Event.llmInvoke
        [("system", SYSTEM_PROMPT),
         ("human",
           "CONTEXT:\n" ++ format_docs docs ++ "\n\nCHAT HISTORY:\n"
             ++ envW.render stReadyW.memory ++ "\n\nQUESTION:\n" ++ "q"
             ++ "\n\nANSWER:")] answer ∈ tr :=
  askQuestion_prompt_grounded envW stReadyW "q"
    ⟨⟨[⟨"seed", "text"⟩], VECTORSTORE_DIR⟩, 4⟩ rfl rfl

/-- C3: the retrieval performed by `ask_question` itself and the one
performed inside the chain's context lambda are invocations of the
same retriever on the same question over an unchanged store, so they
return the same documents: the `source_documents` of the result are
exactly the documents formatted into the prompt's CONTEXT. -/
theorem askQuestion_sources_match_context (env : Env) (st : RAGState)
    (q : String) (r : Retriever) (hchain : st.qa_chain = true)
    (hr : st.retriever = some r) :
    ∃ docs1 docs2 prompt answer st2,
      ask_question env st q =
        .ok ({ answer := answer, source_documents := some docs1 }, st2,
          [.retrieve q docs1, .retrieve q docs2, .assemblePrompt prompt,
           .llmInvoke prompt answer, .saveContext q answer]) ∧
      docs2 = docs1 ∧
      prompt = RAG_PROMPT_format env.render (format_docs docs1) st.memory q := by
  refine ⟨retriever_invoke env r q, retriever_invoke env r q,
    RAG_PROMPT_format env.render (format_docs (retriever_invoke env r q)) st.memory q,
    env.llm (RAG_PROMPT_format env.render (format_docs (retriever_invoke env r q))
      st.memory q),
    { st with
        memory := save_context st.memory q
          (env.llm (RAG_PROMPT_format env.render
            (format_docs (retriever_invoke env r q)) st.memory q)) },
    ?_, rfl, rfl⟩
  simp [ask_question, hchain, hr]

/-- Witness for C3 at the concrete ready state. -/
theorem askQuestion_sources_match_context_witness :
    ∃ docs1 docs2 prompt answer st2,
      ask_question envW stReadyW "q" =
        .ok ({ answer := answer, source_documents := some docs1 }, st2,
          [.retrieve "q" docs1, .retrieve "q" docs2, .assemblePrompt prompt,
           .llmInvoke prompt answer, .saveContext "q" answer]) ∧
      docs2 = docs1 ∧
      prompt =
        RAG_PROMPT_format envW.render (format_docs docs1) stReadyW.memory "q" :=
  askQuestion_sources_match_context envW stReadyW "q"
    ⟨⟨[⟨"seed", "text"⟩], VECTORSTORE_DIR⟩, 4⟩ rfl rfl

/-- C6: every retriever the code constructs carries `k = 4` — the fresh
instance holds no retriever, and `load_existing_vectorstore`,
`ingest_documents` and `setup_qa_chain` preserve that every held
retriever has `k = 4` — and consequently `ask_question` keeps the
invariant and returns at most 4 source documents. -/
theorem retriever_k_eq_four (env : Env) (st : RAGState) (docs : List Doc)
    (q : String) (hk : RetrieverK4 st) :
    RetrieverK4 initState ∧
    RetrieverK4 (load_existing_vectorstore env st).1 ∧
    RetrieverK4 (ingest_documents st docs) ∧
    RetrieverK4 (setup_qa_chain st) ∧
    (∀ res st2 tr, ask_question env st q = .ok (res, st2, tr) →
      RetrieverK4 st2 ∧ ∀ ds, res.source_documents = some ds → ds.length ≤ 4) := by
  refine ⟨?_, ?_, ?_, ?_, ?_⟩
  · intro r h
    simp [initState] at h
  · intro r h
    by_cases hp : env.pathExists VECTORSTORE_DIR
    · simp [load_existing_vectorstore, hp] at h
      subst h
      rfl
    · simp [load_existing_vectorstore, hp] at h
      exact hk r h
  · intro r h
    by_cases hd : docs.isEmpty
    · simp [ingest_documents, hd] at h
      exact hk r h
    · simp [ingest_documents, hd] at h
      subst h
      rfl
  · intro r h
    cases hrt : st.retriever with
    | none =>
      simp [setup_qa_chain, hrt] at h
    | some r0 =>
      simp [setup_qa_chain, hrt] at h
      subst h
      exact hk r0 hrt
  · intro res st2 tr hask
    by_cases hc : st.qa_chain = true
    · cases hrt : st.retriever with
      | none => simp [ask_question, hc, hrt] at hask
      | some r =>
        rw [ask_question] at hask
        simp [hc, hrt] at hask
        obtain ⟨hres, hst2, _⟩ := hask
        refine ⟨?_, ?_⟩
        · intro r2 h2
          rw [← hst2] at h2
          simp at h2
          subst h2
          exact hk r hrt
        · intro ds hds
          rw [← hres] at hds
          simp at hds
          subst hds
          calc (retriever_invoke env r q).length
              ≤ r.k := by simp [retriever_invoke]
            _ = 4 := hk r hrt
    · have hc' : st.qa_chain = false := by
        revert hc
        cases st.qa_chain <;> simp
      rw [ask_question] at hask
      simp [hc'] at hask
      obtain ⟨hres, hst2, _⟩ := hask
      refine ⟨?_, ?_⟩
      · intro r2 h2
        rw [← hst2] at h2
        exact hk r2 h2
      · intro ds hds
        rw [← hres] at hds
        simp at hds

/-- Witness for C6: the invariant holds after ingesting one document
into a fresh instance. -/
theorem retriever_k_eq_four_witness :
    RetrieverK4 (ingest_documents initState [⟨"s", "c"⟩]) :=
  (retriever_k_eq_four envW initState [⟨"s", "c"⟩] "q"
    (fun r h => by simp [initState] at h)).2.2.1

/-- Every window the splitter produces holds at most 1000 characters. -/
theorem split_text_chars_length_le (cs : List Char) :
    ∀ c ∈ split_text_chars cs, c.length ≤ 1000 := by
  induction cs using split_text_chars.induct with
  | case1 cs h =>
    intro c hc
    rw [split_text_chars] at hc
    simp [h] at hc
    subst hc
    exact h
  | case2 cs h ih =>
    intro c hc
    rw [split_text_chars] at hc
    simp [h] at hc
    rcases hc with rfl | hc
    · simp
    · exact ih c hc

/-- Consecutive windows overlap: the 200-character tail of each window
is the 200-character head of the next. -/
theorem split_text_chars_chain (cs : List Char) :
    List.Chain' (fun a b => a.drop 800 = b.take 200 ∧ (a.drop 800).length ≤ 200)
      (split_text_chars cs) := by
  induction cs using split_text_chars.induct with
  | case1 cs h =>
    rw [split_text_chars]
    simp [h]
  | case2 cs h ih =>
    rw [split_text_chars]
    simp only [if_neg h]
    refine List.chain'_cons'.mpr ⟨?_, ih⟩
    intro b hb
    have hd : (cs.take 1000).drop 800 = (cs.drop 800).take 200 := by
      rw [List.drop_take]
    have hb' : b = cs.drop 800 ∨ b = (cs.drop 800).take 1000 := by
      rw [split_text_chars] at hb
      by_cases h2 : (cs.drop 800).length ≤ 1000
      · rw [if_pos h2] at hb
        simp at hb
        exact Or.inl hb.symm
      · rw [if_neg h2] at hb
        simp at hb
        exact Or.inr hb.symm
    constructor
    · rcases hb' with rfl | rfl
      · exact hd
      · rw [hd, List.take_take]
        simp
    · rw [hd]
      simp

/-- C5: `ingest_documents` indexes the chunked documents — every chunk
is at most 1000 characters long, and within each source document
consecutive chunks overlap by up to 200 characters (the tail of one is
the head of the next). -/
theorem ingest_chunks_bounded_overlapping (st : RAGState) (docs : List Doc)
    (h : docs ≠ []) :
    (ingest_documents st docs).vector_store =
      some ⟨split_documents docs, VECTORSTORE_DIR⟩ ∧
    (∀ c ∈ split_documents docs, c.content.length ≤ 1000) ∧
    (∀ d ∈ docs,
      List.Chain'
        (fun a b =>
          a.data.drop 800 = b.data.take 200 ∧ (a.data.drop 800).length ≤ 200)
        (split_text d.content)) := by
  refine ⟨?_, ?_, ?_⟩
  · simp [ingest_documents, List.isEmpty_iff, h]
  · intro c hc
    simp [split_documents, split_text] at hc
    obtain ⟨d, hd, c', hc', rfl⟩ := hc
    exact split_text_chars_length_le _ _ hc'
  · intro d hd
    exact (List.chain'_map String.mk).mpr (split_text_chars_chain _)

/-- Witness for C5 at a one-document list. -/
theorem ingest_chunks_bounded_overlapping_witness :
    (ingest_documents initState [⟨"s", "hello"⟩]).vector_store =
      some ⟨split_documents [⟨"s", "hello"⟩], VECTORSTORE_DIR⟩ ∧
      ∀ c ∈ split_documents [⟨"s", "hello"⟩], c.content.length ≤ 1000 :=
  ⟨(ingest_chunks_bounded_overlapping initState [⟨"s", "hello"⟩] (by simp)).1,
    (ingest_chunks_bounded_overlapping initState [⟨"s", "hello"⟩] (by simp)).2.1⟩

/-- The basename of a joined path is the joined filename. -/
theorem os_basename_os_join (dir : List String) (f : String) :
    os_basename (os_join dir f) = f := by
  simp [os_basename, os_join, List.getLastD_concat]

/-- The directory loop realises the claim-side per-file description on
any listing whose entries' contents match their suffixes. -/
theorem load_documents_loop_spec (fs : FileSystem) (dir : List String) :
    ∀ L : List String, (∀ f ∈ L, FileOkFor fs dir f) →
      load_documents_loop fs dir L = .ok (L.flatMap (c4_docs_for fs dir)) := by
  intro L
  induction L with
  | nil => intro _; rfl
  | cons f rest ih =>
    intro h
    have hrest := ih (fun g hg => h g (by simp [hg]))
    obtain ⟨h1, h2⟩ := h f (by simp)
    by_cases hpdf : strEndsWith f ".pdf" = true
    · obtain ⟨pages, hp⟩ := h1 hpdf
      simp [load_documents_loop, c4_docs_for, hpdf, parse_pdf, hp, hrest,
        os_basename_os_join]
      rfl
    · have hpdf' : strEndsWith f ".pdf" = false := by
        revert hpdf
        cases strEndsWith f ".pdf" <;> simp
      by_cases hmd : strEndsWith f ".md" = true
      · obtain ⟨c, hc⟩ := h2 hpdf' (Or.inl hmd)
        simp [load_documents_loop, c4_docs_for, hpdf', hmd, parse_markdown, hc,
          hrest, os_basename_os_join]
        rfl
      · have hmd' : strEndsWith f ".md" = false := by
          revert hmd
          cases strEndsWith f ".md" <;> simp
        by_cases htxt : strEndsWith f ".txt" = true
        · obtain ⟨c, hc⟩ := h2 hpdf' (Or.inr htxt)
          simp [load_documents_loop, c4_docs_for, hpdf', hmd', htxt, parse_text,
            hc, hrest, os_basename_os_join]
          rfl
        · have htxt' : strEndsWith f ".txt" = false := by
            revert htxt
            cases strEndsWith f ".txt" <;> simp
          simp [load_documents_loop, c4_docs_for, hpdf', hmd', htxt', hrest]
          rfl

/-- C4: over a directory whose entries' contents match their names,
`load_documents` returns exactly the parses of the files ending in
`.pdf`, `.md` or `.txt` — a PDF contributing one entry per page with
source `"<basename> - Page <n>"`, a markdown or text file one entry
with source its basename — and every other file contributes nothing. -/
theorem load_documents_spec (fs : FileSystem) (listdir : List String → List String)
    (dir : List String) (h : ∀ f ∈ listdir dir, FileOkFor fs dir f) :
    load_documents fs listdir dir =
      .ok ((listdir dir).flatMap (c4_docs_for fs dir)) :=
  load_documents_loop_spec fs dir (listdir dir) h

/-- Witness for C4 on the concrete four-entry directory: the PDF's two
pages, the markdown file, the text file, and nothing for `skip.png`. -/
theorem load_documents_spec_witness :
    load_documents fsW listdirW ["docs"] =
      .ok [⟨"a.pdf - Page 1", "page one"⟩, ⟨"a.pdf - Page 2", "page two"⟩,
           ⟨"b.md", "md body"⟩, ⟨"notes.txt", "txt body"⟩] := by
  have hok : ∀ f ∈ listdirW ["docs"], FileOkFor fsW ["docs"] f := by
    intro f hf
    simp [listdirW] at hf
    rcases hf with rfl | rfl | rfl | rfl
    · exact ⟨fun _ => ⟨["page one", "page two"], by decide⟩,
        fun hf2 _ => absurd hf2 (by decide)⟩
    · exact ⟨fun hp => absurd hp (by decide), fun _ _ => ⟨"md body", by decide⟩⟩
    · exact ⟨fun hp => absurd hp (by decide), fun _ _ => ⟨"txt body", by decide⟩⟩
    · exact ⟨fun hp => absurd hp (by decide), fun _ ho => absurd ho (by decide)⟩
  rw [load_documents_spec fsW listdirW ["docs"] hok]
  rfl

end RagDoc
